import Mathlib

/-!
Shallow embedding, in Lean 4, of three Home Assistant platform adapters:

* `homeassistant/components/device_tracker/ubus.py` — an OpenWRT (ubus)
  device tracker: dnsmasq lease parsing, connected-device scanning, and
  the scanner construction;
* `homeassistant/components/xiaomi_miio/vacuum.py` — the `MiroboVacuum`
  entity: coordinator state translation, fan-speed presets, and the
  command handlers with their `DeviceException` handling;
* `homeassistant/components/xiaomi_miio/ng_switch.py` — the `XiaomiSwitch`
  entity: `async_turn_on` / `async_turn_off`.

Python dicts are modelled as association lists with dict insertion
semantics (an insert of an existing key overwrites in place, a new key
appends); device and bus I/O is modelled by oracle parameters giving the
outcome of each external call (`Except` values); Python exceptions
escaping a function are modelled by `Except`-valued results.
-/

set_option autoImplicit false

universe u v

/-! ## Python dict as an association list -/

/-- Python `d[k]` read (`None`-free): first binding of `k`, if any.
Association lists built by `dictInsert` have at most one binding per key,
matching a Python dict. -/
def dictGet? {κ : Type u} {α : Type v} [DecidableEq κ] (k : κ) :
    List (κ × α) → Option α
  | [] => none
  | kv :: rest => if kv.1 = k then some kv.2 else dictGet? k rest

/-- Python `d[k] = v`: overwrite the existing binding of `k` in place, or
append a new binding (insertion order preserved, as for a Python dict). -/
def dictInsert {κ : Type u} {α : Type v} [DecidableEq κ] (k : κ) (v : α) :
    List (κ × α) → List (κ × α)
  | [] => [(k, v)]
  | kv :: rest => if kv.1 = k then (k, v) :: rest else kv :: dictInsert k v rest

/-- Python `d.update(new)`: insert every binding of `new` into `d`,
in order. -/
def dictUpdate {κ : Type u} {α : Type v} [DecidableEq κ]
    (d new : List (κ × α)) : List (κ × α) :=
  new.foldl (fun acc kv => dictInsert kv.1 kv.2 acc) d

/-- Equality of modelled call outcomes is decidable (used to evaluate
the embedding on concrete inputs). -/
def exceptDecEq {ε : Type u} {α : Type v} [DecidableEq ε] [DecidableEq α] :
    DecidableEq (Except ε α)
  | .error a, .error b =>
    if h : a = b then .isTrue (congrArg Except.error h)
    else .isFalse (fun hc => h (Except.error.inj hc))
  | .ok a, .ok b =>
    if h : a = b then .isTrue (congrArg Except.ok h)
    else .isFalse (fun hc => h (Except.ok.inj hc))
  | .error _, .ok _ => .isFalse (fun hc => Except.noConfusion hc)
  | .ok _, .error _ => .isFalse (fun hc => Except.noConfusion hc)

instance {ε : Type u} {α : Type v} [DecidableEq ε] [DecidableEq α] :
    DecidableEq (Except ε α) := exceptDecEq

/-! ## Python string primitives used by the source -/

/-- Python `s.split(sep)` for a one-character separator `sep`: consecutive
separators yield empty fields, and the result is never empty. -/
def splitOnChar (c : Char) : List Char → List (List Char)
  | [] => [[]]
  | x :: xs =>
    if x = c then [] :: splitOnChar c xs
    else
      match splitOnChar c xs with
      | r :: rs => (x :: r) :: rs
      | [] => [[x]]

/-- Python `str.split(" ")` on a `String`. -/
def pySplitSpace (s : String) : List String :=
  (splitOnChar ' ' s.data).map String.mk

/-- Python whitespace (the ASCII part of `str.isspace`). -/
def pyIsSpace (c : Char) : Bool :=
  c = ' ' || c = '\t' || c = '\n' || c = '\r' || c = '\x0b' || c = '\x0c'

/-- Split at every character satisfying `p`, keeping empty fields. -/
def splitOnPred (p : Char → Bool) : List Char → List (List Char)
  | [] => [[]]
  | x :: xs =>
    if p x then [] :: splitOnPred p xs
    else
      match splitOnPred p xs with
      | r :: rs => (x :: r) :: rs
      | [] => [[x]]

/-- Python `str.split()` with no argument: split on runs of whitespace,
discarding empty fields. -/
def pySplitWhitespace (s : String) : List String :=
  ((splitOnPred pyIsSpace s.data).filter (fun f => ¬ f = [])).map String.mk

/-- Python `str.splitlines()` restricted to `\n` line endings: split on
`\n` and drop the trailing empty field a terminating newline produces
(`"".splitlines() = []`). -/
def pySplitlines (s : String) : List String :=
  let parts := (splitOnChar '\n' s.data).map String.mk
  if parts.getLast? = some "" then parts.dropLast else parts

/-- Python `str.upper()` (ASCII range, which covers hardware addresses). -/
def pyUpper (s : String) : String :=
  String.mk (s.data.map Char.toUpper)

/-- Python `str.strip()` (whitespace strip on both ends). -/
def pyStrip (s : List Char) : List Char :=
  ((s.dropWhile (fun c => pyIsSpace c)).reverse.dropWhile
    (fun c => pyIsSpace c)).reverse

/-- Digit tail of a Python decimal integer literal: each further digit may
be preceded by a single underscore (`int("1_0") = 10`, while `"1__0"`,
`"1_"` are rejected). -/
def pyDigitsLoop : List Char → Nat → Option Nat
  | [], acc => some acc
  | '_' :: c :: cs, acc =>
    if c.isDigit then pyDigitsLoop cs (acc * 10 + (c.toNat - 48)) else none
  | ['_'], _ => none
  | c :: cs, acc =>
    if c.isDigit then pyDigitsLoop cs (acc * 10 + (c.toNat - 48)) else none

/-- One or more decimal digits with single underscore separators. -/
def pyUnsignedInt? : List Char → Option Nat
  | [] => none
  | c :: cs => if c.isDigit then pyDigitsLoop cs (c.toNat - 48) else none

/-- Python `int(s)` on a decimal string: strip whitespace, optional sign,
then digits; `none` models the `ValueError`. -/
def pyInt? (s : String) : Option Int :=
  match pyStrip s.data with
  | '+' :: cs => (pyUnsignedInt? cs).map Int.ofNat
  | '-' :: cs => (pyUnsignedInt? cs).map (fun n => -(n : Int))
  | cs => (pyUnsignedInt? cs).map Int.ofNat

/-! ## `device_tracker/ubus.py` — data model -/

/-- `Lease` (`ubus.py`, `@attr.s class Lease`): one dnsmasq lease record,
fields in declaration order `expires, mac, ip, hostname, client_id`. -/
structure Lease where
  expires : String
  mac : String
  ip : String
  hostname : String
  client_id : String
deriving DecidableEq

/-- One record of `ubus["iwinfo"]["assoclist"](device=iface)`: a dict with
a `"mac"` entry plus further radio attributes (signal, ...), which the
adapter passes through untouched and which we keep abstract. -/
structure AssocRecord where
  mac : String
  attrs : List (String × String)
deriving DecidableEq

/-- A Python exception escaping a tracker method: the vendor library's
`UbusException` (with its message), or the `TypeError` that
`Lease(*fields)` raises when a lease line does not split into exactly
five fields. -/
inductive PyErr
  | ubusException (msg : String)
  | typeError
deriving DecidableEq

/-- Outcome oracle for every external `ubus` call a scan performs. Each
field is the result the vendor library would return, or the message of
the `UbusException` it would raise. `_get_odhcpd_leases` only scrapes and
logs raw bus replies, so its returned dict is taken as an oracle value as
well (in the source its name `leases` is even shadowed by the inner loop
variable, so its content is device-dependent). -/
structure UbusEnv where
  /-- `with self.ubus as ubus`: `some msg` when entering the session
  raises `UbusException msg`. -/
  connect : Option String
  /-- Python `"dhcp" in ubus`. -/
  hasDhcp : Bool
  /-- Result of `_get_odhcpd_leases(ubus)` (its own bus calls may raise). -/
  odhcpd : Except String (List (String × Lease))
  /-- Result of `_get_lease_files(ubus)` (the `uci get` call may raise). -/
  uciLeaseFiles : Except String (List String)
  /-- `ubus["file"]["read"](path=p)["data"]`, per path `p`. -/
  fileRead : String → Except String String
  /-- `ubus["iwinfo"]["assoclist"](device=iface)`, per interface. -/
  assoclist : String → Except String (List AssocRecord)

/-! ## `ubus.py` — dnsmasq lease parsing (`_get_dnsmasq_leases`) -/

/-- `Lease(*fields)`: succeeds exactly when `fields` has five elements
(the attrs-generated constructor takes five positional arguments);
`none` models the `TypeError` otherwise. -/
def mkLease : List String → Option Lease
  | [e, m, i, h, c] => some ⟨e, m, i, h, c⟩
  | _ => none

/-- The `for lease_line in currently_leased.splitlines()` loop body of
`_get_dnsmasq_leases`: build `Lease(*lease_line.split(" "))` and key it
by `lease.mac.upper()`; a `TypeError` (`none`) aborts the whole call. -/
def dnsmasqLinesLoop : List String → List (String × Lease) →
    Option (List (String × Lease))
  | [], leases => some leases
  | line :: rest, leases =>
    match mkLease (pySplitSpace line) with
    | none => none
    | some lease => dnsmasqLinesLoop rest (dictInsert (pyUpper lease.mac) lease leases)

/-- `_get_dnsmasq_leases` as a function of the lease file's text (the
`ubus["file"]["read"]` result): parse every line, returning the keyed
dict, or `none` for the escaping `TypeError`. -/
def get_dnsmasq_leases_text (text : String) : Option (List (String × Lease)) :=
  dnsmasqLinesLoop (pySplitlines text) []

/-- Spec reading of `_get_dnsmasq_leases` taken verbatim from the claim:
split each line into fields by WHITESPACE splitting, build the Lease from
the fields in order and key it by the uppercased second field. -/
def dnsmasqWhitespaceSpec (text : String) : Option (List (String × Lease)) :=
  (pySplitlines text).foldlM
    (fun leases line =>
      match pySplitWhitespace line with
      | [f1, f2, f3, f4, f5] =>
          some (dictInsert (pyUpper f2) ⟨f1, f2, f3, f4, f5⟩ leases)
      | _ => none)
    []

/-- The amended reading of the claim: identical except that each line is
split at every single space character (so consecutive spaces yield empty
fields and a tab does not separate). -/
def dnsmasqSingleSpaceSpec (text : String) : Option (List (String × Lease)) :=
  (pySplitlines text).foldlM
    (fun leases line =>
      match pySplitSpace line with
      | [f1, f2, f3, f4, f5] =>
          some (dictInsert (pyUpper f2) ⟨f1, f2, f3, f4, f5⟩ leases)
      | _ => none)
    []

/-- `_get_dnsmasq_leases(ubus, lease_file)` with the file read performed
through the oracle: an `UbusException` from the read, or a `TypeError`
from a malformed line, escapes. -/
def get_dnsmasq_leases (env : UbusEnv) (lease_file : String) :
    Except PyErr (List (String × Lease)) :=
  match env.fileRead lease_file with
  | .error m => .error (.ubusException m)
  | .ok text =>
    match get_dnsmasq_leases_text text with
    | none => .error .typeError
    | some d => .ok d

/-! ## `ubus.py` — `_get_connected_devices`, `_get_leases`, scanner API -/

/-- The `for iface in self._wlan_ifaces` loop of `_get_connected_devices`:
`clients.update(\x7bx["mac"]: x for x in clients_for_iface\x7d)` per
interface; a raised `UbusException` leaves the loop with the clients
accumulated so far and is reported through the log. -/
def assoclistLoop (env : UbusEnv) : List String →
    List (String × AssocRecord) → List (String × AssocRecord) × List String
  | [], clients => (clients, [])
  | iface :: rest, clients =>
    match env.assoclist iface with
    | .ok recs =>
        assoclistLoop env rest (dictUpdate clients (recs.map (fun r => (r.mac, r))))
    | .error m => (clients, ["Unable to read connected devices: " ++ m])

/-- `_get_connected_devices`: returns the mac-keyed client dict plus the
error log; every `UbusException` is caught inside the method. -/
def get_connected_devices (env : UbusEnv) (wlan_ifaces : List String) :
    List (String × AssocRecord) × List String :=
  match env.connect with
  | some m => ([], ["Unable to read connected devices: " ++ m])
  | none => assoclistLoop env wlan_ifaces []

/-- The `for lease_file in lease_files` loop of `_get_leases`:
`leases.update(self._get_dnsmasq_leases(ubus, lease_file))` per file; an
exception leaves the loop with the leases accumulated so far. -/
def leaseFilesLoop (env : UbusEnv) : List String → List (String × Lease) →
    List (String × Lease) × Option PyErr
  | [], leases => (leases, none)
  | lf :: rest, leases =>
    match get_dnsmasq_leases env lf with
    | .ok d => leaseFilesLoop env rest (dictUpdate leases d)
    | .error e => (leases, some e)

/-- Exit path of the `try` block in `_get_leases`: a caught
`UbusException` is logged and the accumulated dict returned; a
`TypeError` is not caught and escapes. -/
def getLeasesFinish (leases : List (String × Lease)) :
    Option PyErr → Except PyErr (List (String × Lease) × List String)
  | none => .ok (leases, [])
  | some (.ubusException m) => .ok (leases, ["Unable to read leases from ubus: " ++ m])
  | some .typeError => .error .typeError

/-- The odhcpd step of `_get_leases`: when `"dhcp" in ubus`,
`leases.update(self._get_odhcpd_leases(ubus))`. -/
def getLeasesDhcpStep (env : UbusEnv) : List (String × Lease) × Option PyErr :=
  if env.hasDhcp then
    match env.odhcpd with
    | .ok d => (dictUpdate [] d, none)
    | .error m => ([], some (.ubusException m))
  else ([], none)

/-- The lease-file list of `_get_leases`: the configured file when one is
set, otherwise `_get_lease_files(ubus)` (whose `uci` call may raise). -/
def getLeaseFileList (env : UbusEnv) : Option String → Except String (List String)
  | some lf => .ok [lf]
  | none => env.uciLeaseFiles

/-- `_get_leases`: the lease dict plus the error log, or an escaping
(non-`UbusException`) exception. -/
def get_leases (env : UbusEnv) (conf_lease_file : Option String) :
    Except PyErr (List (String × Lease) × List String) :=
  match env.connect with
  | some m => .ok ([], ["Unable to read leases from ubus: " ++ m])
  | none =>
    match getLeasesDhcpStep env with
    | (leases, some e) => getLeasesFinish leases (some e)
    | (leases, none) =>
      match getLeaseFileList env conf_lease_file with
      | .error m => getLeasesFinish leases (some (.ubusException m))
      | .ok files =>
        match leaseFilesLoop env files leases with
        | (leases, oe) => getLeasesFinish leases oe

/-- `scan_devices`: `self._get_connected_devices().keys()`. -/
def scan_devices (env : UbusEnv) (wlan_ifaces : List String) : List String :=
  (get_connected_devices env wlan_ifaces).1.map Prod.fst

/-- `get_device_name(mac)`: `leases[mac].hostname` when `mac in leases`,
else Python's implicit `None`; an exception escaping `_get_leases`
escapes here too. -/
def get_device_name (env : UbusEnv) (conf_lease_file : Option String)
    (mac : String) : Except PyErr (Option String) :=
  match get_leases env conf_lease_file with
  | .error e => .error e
  | .ok (leases, _) => .ok ((dictGet? mac leases).map Lease.hostname)

/-! ## `ubus.py` — `UbusDeviceScanner.__init__` -/

/-- An exception escaping `__init__`: a `NameError` for an undefined
module-level name, or a `KeyError` for a missing configuration key. -/
inductive PyInitErr
  | nameError (name : String)
  | keyError (key : String)
deriving DecidableEq

/-- The module-level name environment `__init__` reads configuration keys
from: `CONF_HOST`, `CONF_PASSWORD`, `CONF_USERNAME` imported from
`homeassistant.const` (their documented values), and the module's own
`CONF_LEASE_FILE = "lease_file"`. No name `CONF_LEASEFILE` is defined. -/
def ubusModuleEnv : List (String × String) :=
  [("CONF_HOST", "host"), ("CONF_PASSWORD", "password"),
   ("CONF_USERNAME", "username"), ("CONF_LEASE_FILE", "lease_file")]

/-- Evaluating a bare name in the module scope: `NameError` when it is
not defined. -/
def moduleName (n : String) : Except PyInitErr String :=
  match dictGet? n ubusModuleEnv with
  | some v => .ok v
  | none => .error (.nameError n)

/-- Python `config[key]` on the platform configuration; a value is a
string or `None` (the schema default for the lease file). -/
def configGet (config : List (String × Option String)) (key : String) :
    Except PyInitErr (Option String) :=
  match dictGet? key config with
  | some v => .ok v
  | none => .error (.keyError key)

/-- The fields `UbusDeviceScanner.__init__` stores from the
configuration. -/
structure ScannerConf where
  host : Option String
  username : Option String
  password : Option String
  lease_file : Option String
deriving DecidableEq

/-- `UbusDeviceScanner.__init__`, configuration-reading part, statement
by statement: `host = config[CONF_HOST]`, `self.username =
config[CONF_USERNAME]`, `self.password = config[CONF_PASSWORD]`,
`self.lease_file = config[CONF_LEASEFILE]` — the last line evaluates the
name `CONF_LEASEFILE`, which the module does not define. -/
def ubusScannerInit (config : List (String × Option String)) :
    Except PyInitErr ScannerConf :=
  match moduleName "CONF_HOST" with
  | .error e => .error e
  | .ok hostKey =>
    match configGet config hostKey with
    | .error e => .error e
    | .ok host =>
      match moduleName "CONF_USERNAME" with
      | .error e => .error e
      | .ok userKey =>
        match configGet config userKey with
        | .error e => .error e
        | .ok username =>
          match moduleName "CONF_PASSWORD" with
          | .error e => .error e
          | .ok passKey =>
            match configGet config passKey with
            | .error e => .error e
            | .ok password =>
              match moduleName "CONF_LEASEFILE" with
              | .error e => .error e
              | .ok leaseKey =>
                match configGet config leaseKey with
                | .error e => .error e
                | .ok lease_file => .ok ⟨host, username, password, lease_file⟩

/-! ## `xiaomi_miio/vacuum.py` — data model -/

/-- Home Assistant vacuum display-state constants imported from
`homeassistant.components.vacuum` (their documented values). -/
def STATE_CLEANING : String := "cleaning"

def STATE_DOCKED : String := "docked"

def STATE_ERROR : String := "error"

def STATE_IDLE : String := "idle"

def STATE_PAUSED : String := "paused"

def STATE_RETURNING : String := "returning"

/-- The vendor enum `miio.interfaces.vacuuminterface.VacuumState`: the six
members the adapter maps, plus `other` for any member of the vendor enum
beyond those six (the enum belongs to the vendor library and may grow). -/
inductive VacuumState
  | Error
  | Cleaning
  | Idle
  | Docked
  | Returning
  | Paused
  | other (name : String)
deriving DecidableEq

/-- The mutable entity state the claims touch: `self._state`, the display
state stored by the last handled coordinator update (`None` initially). -/
structure VacState where
  state : Option String
deriving DecidableEq

/-- The `VACUUMSTATE_TO_HASS` dict of `_handle_coordinator_update`, as the
lookup `VACUUMSTATE_TO_HASS.get(vacstate)`: the six known members map to
their Home Assistant constants, anything else to `None`. -/
def VACUUMSTATE_TO_HASS : VacuumState → Option String
  | .Error => some STATE_ERROR
  | .Cleaning => some STATE_CLEANING
  | .Idle => some STATE_IDLE
  | .Docked => some STATE_DOCKED
  | .Returning => some STATE_RETURNING
  | .Paused => some STATE_PAUSED
  | .other _ => none

/-- `_handle_coordinator_update`, given the polled
`coordinator.data.vacuum_state`: `self._state =
VACUUMSTATE_TO_HASS.get(vacstate)`. `dict.get` never raises `KeyError`,
so the `except KeyError` branch with its `_LOGGER.error("Unknown state")`
is unreachable and the produced log is always empty. -/
def handle_coordinator_update (st : VacState) (vacstate : VacuumState) :
    VacState × List String :=
  ({ st with state := VACUUMSTATE_TO_HASS vacstate }, [])

/-- The `state` property: `STATE_ERROR` whenever the coordinator's latest
data reports `VacuumState.Error`, otherwise the stored `self._state`. -/
def vacuum_state_property (st : VacState) (coordState : VacuumState) :
    Option String :=
  if coordState = VacuumState.Error then some STATE_ERROR else st.state

/-! ## `vacuum.py` — fan-speed presets -/

/-- `self._fan_speed_presets_reverse = \x7bspeed: name for name, speed in
self._fan_speed_presets.items()\x7d`. -/
def reversePresets (presets : List (String × Int)) : List (Int × String) :=
  presets.foldl (fun acc p => dictInsert p.2 p.1 acc) []

/-- The `fan_speed` property, given the reversed presets and the reported
`coordinator.data.fanspeed`:
`self._fan_speed_presets_reverse.get(speed, "Custom")`. -/
def fan_speed (presetsReverse : List (Int × String)) (speed : Int) : String :=
  (dictGet? speed presetsReverse).getD "Custom"

/-- The `fan_speed_list` property: `list(self._fan_speed_presets)`, i.e.
the preset names in order. -/
def fan_speed_list (presets : List (String × Int)) : List String :=
  presets.map Prod.fst

/-! ## `vacuum.py` — command handlers and `_try_command` -/

/-- The formatted `_LOGGER.error(mask_error, exc)` line. -/
def logError (mask msg : String) : String :=
  mask ++ " | " ++ msg

/-- `MiroboVacuum._try_command(mask_error, func, *args)`: run the device
SDK call (its outcome is the `call` oracle, `Except.error` carrying the
`DeviceException` message), refresh the coordinator on success (the
entity-state effect of `coordinator.async_refresh` is the abstract
`refresh`), return `True`; on `DeviceException` log the error and return
`False`, leaving the entity state untouched. -/
def try_command (mask : String) (st : VacState) (call : Except String Unit)
    (refresh : VacState → VacState) : VacState × Bool × List String :=
  match call with
  | .ok _ => (refresh st, true, [])
  | .error e => (st, false, [logError mask e])

/-- `async_start`: `_try_command(..., self._device.resume_or_start)`. -/
def async_start (st : VacState) (resume_or_start : Except String Unit)
    (refresh : VacState → VacState) : VacState × Bool × List String :=
  try_command "Unable to start the vacuum: %s" st resume_or_start refresh

/-- `async_pause`: `_try_command(..., self._device.pause)`. -/
def async_pause (st : VacState) (pause : Except String Unit)
    (refresh : VacState → VacState) : VacState × Bool × List String :=
  try_command "Unable to set start/pause: %s" st pause refresh

/-- `async_stop`: `_try_command(..., self._device.stop)`. -/
def async_stop (st : VacState) (stop : Except String Unit)
    (refresh : VacState → VacState) : VacState × Bool × List String :=
  try_command "Unable to stop: %s" st stop refresh

/-- `async_return_to_base`: `_try_command(..., self._device.home)`. -/
def async_return_to_base (st : VacState) (home : Except String Unit)
    (refresh : VacState → VacState) : VacState × Bool × List String :=
  try_command "Unable to return home: %s" st home refresh

/-- `async_clean_spot`: `_try_command(..., self._device.spot)`. -/
def async_clean_spot (st : VacState) (spot : Except String Unit)
    (refresh : VacState → VacState) : VacState × Bool × List String :=
  try_command "Unable to start the vacuum for a spot clean-up: %s" st spot refresh

/-- `async_locate`: `_try_command(..., self._device.find)`. -/
def async_locate (st : VacState) (find : Except String Unit)
    (refresh : VacState → VacState) : VacState × Bool × List String :=
  try_command "Unable to locate the botvac: %s" st find refresh

/-- `async_send_command(command, params)`:
`_try_command(..., self._device.raw_command, command, params)`. The
`params` payload (`dict | list | None`) is opaque to the adapter. -/
def async_send_command (st : VacState) (command : String)
    (params : Option String)
    (raw_command : String → Option String → Except String Unit)
    (refresh : VacState → VacState) : VacState × Bool × List String :=
  try_command "Unable to send command to the vacuum: %s" st
    (raw_command command params) refresh

/-- `async_remote_control_start`: `_try_command(..., manual_start)`. -/
def async_remote_control_start (st : VacState)
    (manual_start : Except String Unit) (refresh : VacState → VacState) :
    VacState × Bool × List String :=
  try_command "Unable to start remote control the vacuum: %s" st manual_start refresh

/-- `async_remote_control_stop`: `_try_command(..., manual_stop)`. -/
def async_remote_control_stop (st : VacState)
    (manual_stop : Except String Unit) (refresh : VacState → VacState) :
    VacState × Bool × List String :=
  try_command "Unable to stop remote control the vacuum: %s" st manual_stop refresh

/-- `async_remote_control_move(rotation, velocity, duration)`:
`_try_command(..., manual_control, velocity=..., rotation=...,
duration=...)`; the float velocity is passed through untouched and
modelled as a rational. -/
def async_remote_control_move (st : VacState) (rotation : Int)
    (velocity : ℚ) (duration : Int)
    (manual_control : ℚ → Int → Int → Except String Unit)
    (refresh : VacState → VacState) : VacState × Bool × List String :=
  try_command "Unable to move with remote control the vacuum: %s" st
    (manual_control velocity rotation duration) refresh

/-- `async_remote_control_move_step`: as the move, via
`manual_control_once`. -/
def async_remote_control_move_step (st : VacState) (rotation : Int)
    (velocity : ℚ) (duration : Int)
    (manual_control_once : ℚ → Int → Int → Except String Unit)
    (refresh : VacState → VacState) : VacState × Bool × List String :=
  try_command "Unable to remote control the vacuum: %s" st
    (manual_control_once velocity rotation duration) refresh

/-- `async_goto(x_coord, y_coord)`: `_try_command(..., goto, x_coord=...,
y_coord=...)`. -/
def async_goto (st : VacState) (x_coord y_coord : Int)
    (goto : Int → Int → Except String Unit) (refresh : VacState → VacState) :
    VacState × Bool × List String :=
  try_command "Unable to send the vacuum cleaner to the specified coordinates: %s"
    st (goto x_coord y_coord) refresh

/-- The `segments` service argument: a single int or a list of ints. -/
inductive Segments
  | single (n : Int)
  | many (ns : List Int)
deriving DecidableEq

/-- The `isinstance(segments, int)` normalization of
`async_clean_segment`. -/
def normalizeSegments : Segments → List Int
  | .single n => [n]
  | .many ns => ns

/-- `async_clean_segment(segments)`: wrap a lone int in a list, then
`_try_command(..., segment_clean, segments=segments)`. -/
def async_clean_segment (st : VacState) (segments : Segments)
    (segment_clean : List Int → Except String Unit)
    (refresh : VacState → VacState) : VacState × Bool × List String :=
  try_command "Unable to start cleaning of the specified segments: %s" st
    (segment_clean (normalizeSegments segments)) refresh

/-- The exceptions `async_clean_zone` catches: `(OSError,
DeviceException)`. -/
inductive ZoneErr
  | osError (msg : String)
  | deviceException (msg : String)
deriving DecidableEq

/-- `async_clean_zone(zone, repeats)`: append `repeats` to every zone
rectangle, call `zoned_clean` through the executor, refresh on success;
a caught `OSError`/`DeviceException` is logged and the entity state left
untouched. -/
def async_clean_zone (st : VacState) (zone : List (List Int)) (repeats : Int)
    (zoned_clean : List (List Int) → Except ZoneErr Unit)
    (refresh : VacState → VacState) : VacState × List String :=
  match zoned_clean (zone.map (fun z => z ++ [repeats])) with
  | .ok _ => (refresh st, [])
  | .error (.osError m) =>
      (st, [logError "Unable to send zoned_clean command to the vacuum: %s" m])
  | .error (.deviceException m) =>
      (st, [logError "Unable to send zoned_clean command to the vacuum: %s" m])

/-- `async_set_fan_speed(fan_speed)`: a preset name resolves through
`self._fan_speed_presets`; otherwise `int(fan_speed)`, whose `ValueError`
is logged and aborts without any device command. The issued device
argument (if any) is returned alongside the state and log. -/
def async_set_fan_speed (st : VacState) (presets : List (String × Int))
    (fanSpeedArg : String) (set_fan_speed : Int → Except String Unit)
    (refresh : VacState → VacState) : VacState × Option Int × List String :=
  match dictGet? fanSpeedArg presets with
  | some v =>
    match try_command "Unable to set fan speed: %s" st (set_fan_speed v) refresh with
    | (st, _, log) => (st, some v, log)
  | none =>
    match pyInt? fanSpeedArg with
    | none =>
        (st, none, ["Fan speed step not recognized (%s). Valid speeds are: %s"])
    | some n =>
      match try_command "Unable to set fan speed: %s" st (set_fan_speed n) refresh with
      | (st, _, log) => (st, some n, log)

/-! ## `xiaomi_miio/ng_switch.py` — the switch entity -/

/-- The mutable switch state the claims touch: `self._attr_is_on`. -/
structure SwitchState where
  is_on : Option Bool
deriving DecidableEq

/-- Modelled from the spec: `XiaomiCoordinatedMiioEntity._try_command`
(defined in `xiaomi_miio/device.py`, which is not part of this fragment)
performs the device SDK call and, per the spec's error-handling design,
catches the vendor `DeviceException`, logs it, and signals failure with a
boolean instead of raising; it returns `True` on success. -/
def base_try_command (mask : String) (call : Except String Unit) :
    Bool × List String :=
  match call with
  | .ok _ => (true, [])
  | .error e => (false, [logError mask e])

/-- `XiaomiSwitch.async_turn_on`: on a successful
`_try_command(..., self._setter, True)` write `self._attr_is_on = True`
back; on failure the state is untouched. -/
def switch_turn_on (st : SwitchState) (setter : Bool → Except String Unit) :
    SwitchState × List String :=
  match base_try_command "Turning %s on failed" (setter true) with
  | (true, log) => ({ st with is_on := some true }, log)
  | (false, log) => (st, log)

/-- `XiaomiSwitch.async_turn_off`: on a successful
`_try_command(..., self._setter, False)` write `self._attr_is_on = False`
back; on failure the state is untouched. -/
def switch_turn_off (st : SwitchState) (setter : Bool → Except String Unit) :
    SwitchState × List String :=
  match base_try_command "Turning off failed" (setter false) with
  | (true, log) => ({ st with is_on := some false }, log)
  | (false, log) => (st, log)

/-! ## Concrete bus environments used to evaluate the scanner -/

/-- A bus whose session entry fails: `with self.ubus` raises
`UbusException "auth failed"` before anything is read. -/
def envConnFail : UbusEnv :=
  { connect := some "auth failed"
    hasDhcp := false
    odhcpd := .ok []
    uciLeaseFiles := .ok []
    fileRead := fun _ => .error "unreachable"
    assoclist := fun _ => .error "unreachable" }

/-- A bus with two wireless interfaces: `wlan0` reports one associated
client, and the `assoclist` call for `wlan1` raises `UbusException`. -/
def envPartial : UbusEnv :=
  { connect := none
    hasDhcp := false
    odhcpd := .ok []
    uciLeaseFiles := .ok []
    fileRead := fun _ => .error "no such file"
    assoclist := fun iface =>
      if iface = "wlan0" then .ok [⟨"aa:bb:cc:dd:ee:ff", []⟩]
      else .error "iface gone" }

/-- A healthy bus holding one dnsmasq lease file with a single lease
line. -/
def envLeases : UbusEnv :=
  { connect := none
    hasDhcp := false
    odhcpd := .ok []
    uciLeaseFiles := .ok []
    fileRead := fun p =>
      if p = "/tmp/dhcp.leases" then
        .ok "1700000000 aa:bb:cc:dd:ee:ff 192.168.1.2 laptop 01:aa"
      else .error "no such file"
    assoclist := fun _ => .ok [] }

/-! ## Helper lemmas on the dict model -/

theorem dictGet?_dictInsert_self {κ : Type u} {α : Type v} [DecidableEq κ]
    (k : κ) (v : α) (d : List (κ × α)) :
    dictGet? k (dictInsert k v d) = some v := by
  induction d with
  | nil => simp [dictInsert, dictGet?]
  | cons kv rest ih =>
    by_cases h : kv.1 = k
    · simp [dictInsert, dictGet?, h]
    · simp [dictInsert, dictGet?, h, ih]

theorem dictGet?_dictInsert_ne {κ : Type u} {α : Type v} [DecidableEq κ]
    {k k' : κ} (v : α) (d : List (κ × α)) (h : k' ≠ k) :
    dictGet? k (dictInsert k' v d) = dictGet? k d := by
  induction d with
  | nil => simp [dictInsert, dictGet?, h]
  | cons kv rest ih =>
    by_cases h2 : kv.1 = k'
    · simp [dictInsert, dictGet?, h2, h]
    · simp only [dictInsert, dictGet?, h2, if_false, ite_false]
      by_cases h3 : kv.1 = k
      · simp [dictGet?, h3]
      · simp [dictGet?, h3, ih]

theorem dictGet?_eq_some_mem {κ : Type u} {α : Type v} [DecidableEq κ]
    {k : κ} {v : α} {d : List (κ × α)}
    (h : dictGet? k d = some v) : (k, v) ∈ d := by
  induction d with
  | nil => cases h
  | cons kv rest ih =>
    unfold dictGet? at h
    split at h
    · have hkv : kv = (k, v) := by
        obtain ⟨k0, v0⟩ := kv
        injection h with hv
        simp_all
      rw [hkv] at *
      exact List.mem_cons_self _ _
    · exact List.mem_cons_of_mem _ (ih h)

theorem mem_keys_iff_dictGet? {κ : Type u} {α : Type v} [DecidableEq κ]
    (k : κ) (d : List (κ × α)) :
    k ∈ d.map Prod.fst ↔ ∃ v, dictGet? k d = some v := by
  induction d with
  | nil => simp [dictGet?]
  | cons kv rest ih =>
    by_cases h : kv.1 = k
    · simp [dictGet?, h]
    · simp only [List.map_cons, List.mem_cons, dictGet?, h, ite_false, ih]
      constructor
      · rintro (rfl | hk)
        · exact absurd rfl h
        · exact hk
      · intro hk
        exact Or.inr hk

/-! ## Helper lemmas on the presets reverse mapping -/

theorem foldl_insert_get_notmem (ps : List (String × Int))
    (acc : List (Int × String)) (s : Int) (h : s ∉ ps.map Prod.snd) :
    dictGet? s (ps.foldl (fun acc p => dictInsert p.2 p.1 acc) acc) =
      dictGet? s acc := by
  induction ps generalizing acc with
  | nil => rfl
  | cons p rest ih =>
    simp only [List.map_cons, List.mem_cons] at h
    push_neg at h
    simp only [List.foldl_cons]
    rw [ih _ h.2, dictGet?_dictInsert_ne _ _ (fun hps => h.1 hps.symm)]

theorem foldl_insert_get_mem (ps : List (String × Int))
    (hnd : (ps.map Prod.snd).Nodup) (n : String) (s : Int)
    (hmem : (n, s) ∈ ps) (acc : List (Int × String)) :
    dictGet? s (ps.foldl (fun acc p => dictInsert p.2 p.1 acc) acc) = some n := by
  induction ps generalizing acc with
  | nil => cases hmem
  | cons p rest ih =>
    simp only [List.map_cons, List.nodup_cons] at hnd
    simp only [List.foldl_cons]
    rcases List.mem_cons.mp hmem with heq | hmem'
    · rw [← heq]
      rw [foldl_insert_get_notmem rest _ s (by rw [← heq] at hnd; exact hnd.1)]
      exact dictGet?_dictInsert_self _ _ _
    · exact ih hnd.2 hmem' _

/-! ## Helper lemmas on `_get_leases` -/

theorem getLeasesFinish_ne_ubusException (leases : List (String × Lease))
    (oe : Option PyErr) (m : String) :
    getLeasesFinish leases oe ≠ .error (.ubusException m) := by
  unfold getLeasesFinish
  split <;> simp

theorem get_leases_no_ubus_escape (env : UbusEnv)
    (conf_lease_file : Option String) (m : String) :
    get_leases env conf_lease_file ≠ .error (.ubusException m) := by
  unfold get_leases
  split
  · simp
  · split
    · exact getLeasesFinish_ne_ubusException _ _ _
    · split
      · exact getLeasesFinish_ne_ubusException _ _ _
      · split
        · exact getLeasesFinish_ne_ubusException _ _ _

/-! ## Helper lemmas on the vacuum commands -/

theorem set_fan_speed_device_error_state (st : VacState)
    (presets : List (String × Int)) (fanSpeedArg : String) (e : String)
    (refresh : VacState → VacState) :
    (async_set_fan_speed st presets fanSpeedArg (fun _ => .error e) refresh).1 = st := by
  unfold async_set_fan_speed try_command
  split
  · rfl
  · split
    · rfl
    · rfl

/-! ## Helper lemma on the dnsmasq parse loop -/

theorem dnsmasqLinesLoop_eq_foldlM (lines : List String)
    (acc : List (String × Lease)) :
    dnsmasqLinesLoop lines acc =
      lines.foldlM
        (fun leases line =>
          match pySplitSpace line with
          | [f1, f2, f3, f4, f5] =>
              some (dictInsert (pyUpper f2) ⟨f1, f2, f3, f4, f5⟩ leases)
          | _ => none)
        acc := by
  induction lines generalizing acc with
  | nil => rfl
  | cons line rest ih =>
    simp only [dnsmasqLinesLoop, List.foldlM]
    rcases hsp : pySplitSpace line with
      _ | ⟨f1, _ | ⟨f2, _ | ⟨f3, _ | ⟨f4, _ | ⟨f5, _ | ⟨f6, tl⟩⟩⟩⟩⟩⟩ <;>
      simp [mkLease, ih, Bind.bind, Option.bind]

/-! ## Claim theorems -/

/-- C2 (amended): for every lease-file text, `_get_dnsmasq_leases` splits
each line into fields at every single space character (so consecutive
spaces yield empty fields), builds a `Lease` from the fields in order —
aborting with a `TypeError` when a line does not yield exactly five
fields — and keys the resulting mapping by the uppercased second field
(the hardware address). -/
theorem C2_dnsmasq_parse_amended (text : String) :
    get_dnsmasq_leases_text text = dnsmasqSingleSpaceSpec text := by
  unfold get_dnsmasq_leases_text dnsmasqSingleSpaceSpec
  exact dnsmasqLinesLoop_eq_foldlM (pySplitlines text) []

/-- C2 counterexample: on the lease text `"e  m i h c"` (two spaces after
the first field) whitespace splitting yields five fields and a keyed
lease, but the code's `split(" ")` yields six fields, so the two parses
disagree — the code raises a `TypeError` where the claimed whitespace
splitting succeeds. -/
theorem C2_whitespace_split_counterexample :
    get_dnsmasq_leases_text "e  m i h c" ≠ dnsmasqWhitespaceSpec "e  m i h c" := by
  decide

/-- C3 (the code, evaluated at the failing input): when the device
reports a vacuum state outside the six known states,
`_handle_coordinator_update` stores `None` as the display state but logs
nothing — `dict.get` never raises, so the `except KeyError` branch that
would emit the claimed error log is unreachable. -/
theorem C3_unknown_state_sets_none_logs_nothing (st : VacState) :
    handle_coordinator_update st (VacuumState.other "zoned clean") =
      ({ st with state := none }, []) := rfl

/-- C4 (amended): every vendor-library (`UbusException`) failure is
caught and logged; the scan returns the entries accumulated before the
failure — in particular the empty dict when the failure precedes any
read, e.g. when opening the bus session — and no vendor exception
escapes `_get_leases` or `get_device_name`. -/
theorem C4_vendor_errors_caught_amended (env : UbusEnv)
    (wlan_ifaces : List String) (conf_lease_file : Option String)
    (mac : String) (m : String) :
    (∀ msg, get_leases env conf_lease_file ≠ .error (.ubusException msg)) ∧
    (∀ msg, get_device_name env conf_lease_file mac ≠ .error (.ubusException msg)) ∧
    (env.connect = some m →
      get_connected_devices env wlan_ifaces =
        ([], ["Unable to read connected devices: " ++ m]) ∧
      get_leases env conf_lease_file =
        .ok ([], ["Unable to read leases from ubus: " ++ m])) := by
  refine ⟨fun msg => get_leases_no_ubus_escape env conf_lease_file msg, ?_, ?_⟩
  · intro msg hcontra
    unfold get_device_name at hcontra
    cases h : get_leases env conf_lease_file with
    | error e =>
      rw [h] at hcontra
      injection hcontra with he
      rw [he] at h
      exact get_leases_no_ubus_escape env conf_lease_file msg h
    | ok p => rw [h] at hcontra; cases hcontra
  · intro hconn
    constructor
    · unfold get_connected_devices
      rw [hconn]
    · unfold get_leases
      rw [hconn]

/-- C4 counterexample: with `wlan0` reporting one client and the
`assoclist` call for `wlan1` raising `UbusException`,
`_get_connected_devices` returns the non-empty dict accumulated before
the exception, not the empty dict the claim states. -/
theorem C4_partial_result_counterexample :
    (envPartial.assoclist "wlan1" = .error "iface gone") ∧
    (get_connected_devices envPartial ["wlan0", "wlan1"]).1 ≠ [] := by
  decide

/-- C4 witness: a bus whose session entry fails yields the empty device
dict and the empty lease dict, each with an error log. -/
theorem C4_vendor_errors_caught_witness :
    get_connected_devices envConnFail ["wlan0"] =
      ([], ["Unable to read connected devices: auth failed"]) ∧
    get_leases envConnFail none =
      .ok ([], ["Unable to read leases from ubus: auth failed"]) :=
  (C4_vendor_errors_caught_amended envConnFail ["wlan0"] none "aa" "auth failed").2.2 rfl

/-- C5 (the code, evaluated at the failing input): on every configuration
that provides `host`, `username` and `password`,
`UbusDeviceScanner.__init__` raises `NameError` while reading the
lease-file entry, because it evaluates the undefined name
`CONF_LEASEFILE` (the module defines `CONF_LEASE_FILE`); construction
never succeeds. -/
theorem C5_init_raises_name_error (config : List (String × Option String))
    (hv uv pv : Option String)
    (hh : dictGet? "host" config = some hv)
    (hu : dictGet? "username" config = some uv)
    (hp : dictGet? "password" config = some pv) :
    ubusScannerInit config = .error (.nameError "CONF_LEASEFILE") := by
  unfold ubusScannerInit
  simp [moduleName, ubusModuleEnv, dictGet?, configGet, hh, hu, hp]

/-- C5 witness: the `NameError` on a concrete well-formed configuration. -/
theorem C5_init_raises_name_error_witness :
    ubusScannerInit
      [("host", some "192.168.1.1"), ("username", some "root"),
       ("password", some "hunter2"), ("lease_file", none)] =
      .error (.nameError "CONF_LEASEFILE") :=
  C5_init_raises_name_error
    [("host", some "192.168.1.1"), ("username", some "root"),
     ("password", some "hunter2"), ("lease_file", none)]
    (some "192.168.1.1") (some "root") (some "hunter2")
    (by decide) (by decide) (by decide)

/-- C6: the coordinator-update handler translates each of the six known
vendor states to the corresponding Home Assistant display constant by
the `VACUUMSTATE_TO_HASS` table lookup. -/
theorem C6_known_state_table (st : VacState) :
    (handle_coordinator_update st VacuumState.Error).1.state = some STATE_ERROR ∧
    (handle_coordinator_update st VacuumState.Cleaning).1.state = some STATE_CLEANING ∧
    (handle_coordinator_update st VacuumState.Idle).1.state = some STATE_IDLE ∧
    (handle_coordinator_update st VacuumState.Docked).1.state = some STATE_DOCKED ∧
    (handle_coordinator_update st VacuumState.Returning).1.state = some STATE_RETURNING ∧
    (handle_coordinator_update st VacuumState.Paused).1.state = some STATE_PAUSED :=
  ⟨rfl, rfl, rfl, rfl, rfl, rfl⟩

/-- C8: `get_device_name` returns the hostname of the lease stored under
exactly the queried hardware address, and `None` when no lease is stored
under it. -/
theorem C8_device_name_lookup (env : UbusEnv)
    (conf_lease_file : Option String) (mac : String)
    (leases : List (String × Lease)) (log : List String)
    (h : get_leases env conf_lease_file = .ok (leases, log)) :
    (∀ lease, dictGet? mac leases = some lease →
      get_device_name env conf_lease_file mac = .ok (some lease.hostname)) ∧
    (dictGet? mac leases = none →
      get_device_name env conf_lease_file mac = .ok none) := by
  constructor
  · intro lease hl
    unfold get_device_name
    rw [h]
    show Except.ok ((dictGet? mac leases).map Lease.hostname) =
      Except.ok (some lease.hostname)
    rw [hl]
    rfl
  · intro hl
    unfold get_device_name
    rw [h]
    show Except.ok ((dictGet? mac leases).map Lease.hostname) = Except.ok none
    rw [hl]
    rfl

/-- C8 witness: on a bus holding one lease line, the stored uppercased
hardware address resolves to the lease's hostname, and an absent address
resolves to `None`. -/
theorem C8_device_name_lookup_witness :
    get_device_name envLeases (some "/tmp/dhcp.leases") "AA:BB:CC:DD:EE:FF" =
      .ok (some "laptop") ∧
    get_device_name envLeases (some "/tmp/dhcp.leases") "aa:bb:cc:dd:ee:ff" =
      .ok none :=
  ⟨(C8_device_name_lookup envLeases (some "/tmp/dhcp.leases") "AA:BB:CC:DD:EE:FF"
      [("AA:BB:CC:DD:EE:FF",
        ⟨"1700000000", "aa:bb:cc:dd:ee:ff", "192.168.1.2", "laptop", "01:aa"⟩)]
      [] (by decide)).1
      ⟨"1700000000", "aa:bb:cc:dd:ee:ff", "192.168.1.2", "laptop", "01:aa"⟩
      (by decide),
   (C8_device_name_lookup envLeases (some "/tmp/dhcp.leases") "aa:bb:cc:dd:ee:ff"
      [("AA:BB:CC:DD:EE:FF",
        ⟨"1700000000", "aa:bb:cc:dd:ee:ff", "192.168.1.2", "laptop", "01:aa"⟩)]
      [] (by decide)).2
      (by decide)⟩

/-- C9: whenever the coordinator's latest data reports
`VacuumState.Error`, the `state` property returns the error display
state regardless of the stored display state; otherwise it returns the
stored display state. -/
theorem C9_error_state_priority (st : VacState) (coordState : VacuumState) :
    vacuum_state_property st VacuumState.Error = some STATE_ERROR ∧
    (coordState ≠ VacuumState.Error →
      vacuum_state_property st coordState = st.state) := by
  refine ⟨rfl, fun h => ?_⟩
  unfold vacuum_state_property
  simp [h]

/-- C9 witness: with stored display state `docked`, the property returns
`error` while the coordinator reports an error, and `docked` once it
reports idle. -/
theorem C9_error_state_priority_witness :
    vacuum_state_property ⟨some "docked"⟩ VacuumState.Error = some STATE_ERROR ∧
    vacuum_state_property ⟨some "docked"⟩ VacuumState.Idle = some "docked" :=
  ⟨(C9_error_state_priority ⟨some "docked"⟩ VacuumState.Idle).1,
   (C9_error_state_priority ⟨some "docked"⟩ VacuumState.Idle).2 (by decide)⟩

/-- C1: for every user-initiated entity command — switch turn on/off and
every vacuum command — a `DeviceException` raised by the device SDK call
is caught, the error is logged, the handler returns without raising, and
the displayed entity state (the switch's `is_on`, the vacuum's stored
state) is exactly what it was before the command. -/
theorem C1_commands_leave_state_on_device_exception (vst : VacState)
    (sst : SwitchState) (e : String) (refresh : VacState → VacState)
    (command : String) (params : Option String) (rotation duration : Int)
    (velocity : ℚ) (x_coord y_coord repeats : Int) (segments : Segments)
    (zone : List (List Int)) (presets : List (String × Int))
    (fanSpeedArg : String) :
    async_start vst (.error e) refresh =
      (vst, false, [logError "Unable to start the vacuum: %s" e]) ∧
    async_pause vst (.error e) refresh =
      (vst, false, [logError "Unable to set start/pause: %s" e]) ∧
    async_stop vst (.error e) refresh =
      (vst, false, [logError "Unable to stop: %s" e]) ∧
    async_return_to_base vst (.error e) refresh =
      (vst, false, [logError "Unable to return home: %s" e]) ∧
    async_clean_spot vst (.error e) refresh =
      (vst, false, [logError "Unable to start the vacuum for a spot clean-up: %s" e]) ∧
    async_locate vst (.error e) refresh =
      (vst, false, [logError "Unable to locate the botvac: %s" e]) ∧
    async_send_command vst command params (fun _ _ => .error e) refresh =
      (vst, false, [logError "Unable to send command to the vacuum: %s" e]) ∧
    async_remote_control_start vst (.error e) refresh =
      (vst, false, [logError "Unable to start remote control the vacuum: %s" e]) ∧
    async_remote_control_stop vst (.error e) refresh =
      (vst, false, [logError "Unable to stop remote control the vacuum: %s" e]) ∧
    async_remote_control_move vst rotation velocity duration
        (fun _ _ _ => .error e) refresh =
      (vst, false, [logError "Unable to move with remote control the vacuum: %s" e]) ∧
    async_remote_control_move_step vst rotation velocity duration
        (fun _ _ _ => .error e) refresh =
      (vst, false, [logError "Unable to remote control the vacuum: %s" e]) ∧
    async_goto vst x_coord y_coord (fun _ _ => .error e) refresh =
      (vst, false,
        [logError "Unable to send the vacuum cleaner to the specified coordinates: %s" e]) ∧
    async_clean_segment vst segments (fun _ => .error e) refresh =
      (vst, false,
        [logError "Unable to start cleaning of the specified segments: %s" e]) ∧
    async_clean_zone vst zone repeats
        (fun _ => .error (.deviceException e)) refresh =
      (vst, [logError "Unable to send zoned_clean command to the vacuum: %s" e]) ∧
    (async_set_fan_speed vst presets fanSpeedArg (fun _ => .error e) refresh).1 =
      vst ∧
    switch_turn_on sst (fun _ => .error e) =
      (sst, [logError "Turning %s on failed" e]) ∧
    switch_turn_off sst (fun _ => .error e) =
      (sst, [logError "Turning off failed" e]) :=
  ⟨rfl, rfl, rfl, rfl, rfl, rfl, rfl, rfl, rfl, rfl, rfl, rfl, rfl, rfl,
   set_fan_speed_device_error_state vst presets fanSpeedArg e refresh,
   rfl, rfl⟩

/-- C7: the fan-speed presets reverse mapping round-trips. Assuming
distinct preset speed values, a reported speed equal to the value stored
for a preset name makes the `fan_speed` property return that name; a
reported speed equal to no preset's value returns `"Custom"`; and the
preset names are exactly the members of `fan_speed_list`. -/
theorem C7_presets_reverse_round_trip (presets : List (String × Int))
    (hnd : (presets.map Prod.snd).Nodup) :
    (∀ name speed, dictGet? name presets = some speed →
      fan_speed (reversePresets presets) speed = name) ∧
    (∀ speed, speed ∉ presets.map Prod.snd →
      fan_speed (reversePresets presets) speed = "Custom") ∧
    (∀ name, name ∈ fan_speed_list presets ↔
      ∃ speed, dictGet? name presets = some speed) := by
  refine ⟨?_, ?_, ?_⟩
  · intro name speed h
    have hmem := dictGet?_eq_some_mem h
    unfold fan_speed reversePresets
    rw [foldl_insert_get_mem presets hnd name speed hmem []]
    rfl
  · intro speed h
    unfold fan_speed reversePresets
    rw [foldl_insert_get_notmem presets [] speed h]
    rfl
  · intro name
    exact mem_keys_iff_dictGet? name presets

/-- C7 witness: with presets Silent ↦ 38, Standard ↦ 60, a reported 38
reads back as Silent and a reported 99 as Custom. -/
theorem C7_presets_reverse_round_trip_witness :
    fan_speed (reversePresets [("Silent", 38), ("Standard", 60)]) 38 = "Silent" ∧
    fan_speed (reversePresets [("Silent", 38), ("Standard", 60)]) 99 = "Custom" :=
  ⟨(C7_presets_reverse_round_trip [("Silent", 38), ("Standard", 60)]
      (by decide)).1 "Silent" 38 (by decide),
   (C7_presets_reverse_round_trip [("Silent", 38), ("Standard", 60)]
      (by decide)).2.1 99 (by decide)⟩

/-- C10: a fan-speed argument that is neither a preset name nor an
integer string is logged and rejected without any device command, the
entity state unchanged; a preset name issues the command with the
preset's stored value; a non-preset integer string issues it with that
integer. -/
theorem C10_set_fan_speed_dispatch (st : VacState)
    (presets : List (String × Int)) (fanSpeedArg : String)
    (set_fan_speed : Int → Except String Unit) (refresh : VacState → VacState) :
    (dictGet? fanSpeedArg presets = none → pyInt? fanSpeedArg = none →
      async_set_fan_speed st presets fanSpeedArg set_fan_speed refresh =
        (st, none, ["Fan speed step not recognized (%s). Valid speeds are: %s"])) ∧
    (∀ v, dictGet? fanSpeedArg presets = some v →
      (async_set_fan_speed st presets fanSpeedArg set_fan_speed refresh).2.1 =
        some v) ∧
    (∀ n, dictGet? fanSpeedArg presets = none → pyInt? fanSpeedArg = some n →
      (async_set_fan_speed st presets fanSpeedArg set_fan_speed refresh).2.1 =
        some n) := by
  refine ⟨?_, ?_, ?_⟩
  · intro h1 h2
    unfold async_set_fan_speed
    rw [h1, h2]
  · intro v hv
    unfold async_set_fan_speed
    rw [hv]
  · intro n h1 h2
    unfold async_set_fan_speed
    rw [h1, h2]

/-- C10 witness: with the single preset Silent ↦ 38, the argument
`"blah"` is rejected with the state untouched, `"Silent"` issues 38, and
`"42"` issues 42. -/
theorem C10_set_fan_speed_dispatch_witness :
    async_set_fan_speed ⟨none⟩ [("Silent", 38)] "blah" (fun _ => .ok ()) id =
      (⟨none⟩, none, ["Fan speed step not recognized (%s). Valid speeds are: %s"]) ∧
    (async_set_fan_speed ⟨none⟩ [("Silent", 38)] "Silent" (fun _ => .ok ()) id).2.1 =
      some 38 ∧
    (async_set_fan_speed ⟨none⟩ [("Silent", 38)] "42" (fun _ => .ok ()) id).2.1 =
      some 42 :=
  ⟨(C10_set_fan_speed_dispatch ⟨none⟩ [("Silent", 38)] "blah"
      (fun _ => .ok ()) id).1 (by decide) (by decide),
   (C10_set_fan_speed_dispatch ⟨none⟩ [("Silent", 38)] "Silent"
      (fun _ => .ok ()) id).2.1 38 (by decide),
   (C10_set_fan_speed_dispatch ⟨none⟩ [("Silent", 38)] "42"
      (fun _ => .ok ()) id).2.2 42 (by decide) (by decide)⟩
